import Mathlib

/-!
Shallow embedding of `source/ota_task.c` (Infineon mtb-example-ethernet-ota-https).

The file under verification is glue code: a task entry point (`ota_task`),
a bounded Ethernet retry loop (`ethernet_connect`) and an event-logging
callback (`ota_callback`).  External vendor calls (storage init, image
validate, ECM init/connect, network init, agent start) are modelled as
oracles supplied in an environment record; C strings are `Option (List Char)`
with `none` standing for a NULL pointer; every `printf`/decode call is
recorded as a `LogEvent` in an output trace, and each event carries a
predicate `LogEvent.ub` marking the operations whose C behaviour is
undefined when a NULL pointer is formatted with `%s` or passed to `strlen`
(formatting a pointer with `%p` is defined).  Where real C execution would
be undefined the embedding still produces the value of the natural
continuation, and the `ub` flag on the trace records the violation.
-/

/- ------------------------------------------------------------------ -/
/- Result codes and externally defined enumerations                    -/
/- ------------------------------------------------------------------ -/

/-- `CY_RSLT_SUCCESS` (cy_result.h): the success result code, 0. -/
@[simp] def CY_RSLT_SUCCESS : Nat := 0

/-- `CY_RSLT_TYPE_ERROR`: a nonzero error result code, used as the initial
value of `result` in `ethernet_connect` (ota_task.c line 232). -/
@[simp] def CY_RSLT_TYPE_ERROR : Nat := 2

/-- Callback results `cy_ota_callback_results_t` (cy_ota_api.h), the return
type of `ota_callback`. -/
inductive cy_ota_callback_results_t where
  | CY_OTA_CB_RSLT_OTA_CONTINUE
  | CY_OTA_CB_RSLT_OTA_STOP
  | CY_OTA_CB_RSLT_APP_SUCCESS
  | CY_OTA_CB_RSLT_APP_FAILED
deriving DecidableEq, Repr

export cy_ota_callback_results_t
  (CY_OTA_CB_RSLT_OTA_CONTINUE CY_OTA_CB_RSLT_OTA_STOP
   CY_OTA_CB_RSLT_APP_SUCCESS CY_OTA_CB_RSLT_APP_FAILED)

/- The `cy_ota_cb_reason_t` enumeration (cy_ota_api.h).  The callback's
outer `switch` dispatches on these tags; only distinctness of the numeric
values matters to this file, so they are modelled as distinct naturals. -/

/-- Reason tag `CY_OTA_REASON_STATE_CHANGE`. -/
@[simp] def CY_OTA_REASON_STATE_CHANGE : Nat := 0
/-- Reason tag `CY_OTA_REASON_SUCCESS`. -/
@[simp] def CY_OTA_REASON_SUCCESS : Nat := 1
/-- Reason tag `CY_OTA_REASON_FAILURE`. -/
@[simp] def CY_OTA_REASON_FAILURE : Nat := 2
/-- Reason tag `CY_OTA_LAST_REASON`. -/
@[simp] def CY_OTA_LAST_REASON : Nat := 3

/- The `cy_ota_agent_state_t` enumeration (cy_ota_api.h).  The inner
`switch` of `ota_callback` dispatches on these tags; again only
distinctness matters, so they are distinct naturals, and an arbitrary
`Nat` outside the listed values models an unknown/future state tag
(a C `switch` with no `default` falls through and does nothing there). -/

/-- State tag `CY_OTA_STATE_NOT_INITIALIZED`. -/
@[simp] def CY_OTA_STATE_NOT_INITIALIZED : Nat := 0
/-- State tag `CY_OTA_STATE_EXITING`. -/
@[simp] def CY_OTA_STATE_EXITING : Nat := 1
/-- State tag `CY_OTA_STATE_INITIALIZING`. -/
@[simp] def CY_OTA_STATE_INITIALIZING : Nat := 2
/-- State tag `CY_OTA_STATE_AGENT_STARTED`. -/
@[simp] def CY_OTA_STATE_AGENT_STARTED : Nat := 3
/-- State tag `CY_OTA_STATE_AGENT_WAITING`. -/
@[simp] def CY_OTA_STATE_AGENT_WAITING : Nat := 4
/-- State tag `CY_OTA_STATE_START_UPDATE`. -/
@[simp] def CY_OTA_STATE_START_UPDATE : Nat := 5
/-- State tag `CY_OTA_STATE_JOB_CONNECT`. -/
@[simp] def CY_OTA_STATE_JOB_CONNECT : Nat := 6
/-- State tag `CY_OTA_STATE_JOB_DOWNLOAD`. -/
@[simp] def CY_OTA_STATE_JOB_DOWNLOAD : Nat := 7
/-- State tag `CY_OTA_STATE_JOB_DISCONNECT`. -/
@[simp] def CY_OTA_STATE_JOB_DISCONNECT : Nat := 8
/-- State tag `CY_OTA_STATE_JOB_PARSE`. -/
@[simp] def CY_OTA_STATE_JOB_PARSE : Nat := 9
/-- State tag `CY_OTA_STATE_JOB_REDIRECT`. -/
@[simp] def CY_OTA_STATE_JOB_REDIRECT : Nat := 10
/-- State tag `CY_OTA_STATE_DATA_CONNECT`. -/
@[simp] def CY_OTA_STATE_DATA_CONNECT : Nat := 11
/-- State tag `CY_OTA_STATE_DATA_DOWNLOAD`. -/
@[simp] def CY_OTA_STATE_DATA_DOWNLOAD : Nat := 12
/-- State tag `CY_OTA_STATE_DATA_DISCONNECT`. -/
@[simp] def CY_OTA_STATE_DATA_DISCONNECT : Nat := 13
/-- State tag `CY_OTA_STATE_RESULT_CONNECT`. -/
@[simp] def CY_OTA_STATE_RESULT_CONNECT : Nat := 14
/-- State tag `CY_OTA_STATE_RESULT_SEND`. -/
@[simp] def CY_OTA_STATE_RESULT_SEND : Nat := 15
/-- State tag `CY_OTA_STATE_RESULT_RESPONSE`. -/
@[simp] def CY_OTA_STATE_RESULT_RESPONSE : Nat := 16
/-- State tag `CY_OTA_STATE_RESULT_DISCONNECT`. -/
@[simp] def CY_OTA_STATE_RESULT_DISCONNECT : Nat := 17
/-- State tag `CY_OTA_STATE_OTA_COMPLETE`. -/
@[simp] def CY_OTA_STATE_OTA_COMPLETE : Nat := 18
/-- State tag `CY_OTA_STATE_STORAGE_OPEN`. -/
@[simp] def CY_OTA_STATE_STORAGE_OPEN : Nat := 19
/-- State tag `CY_OTA_STATE_STORAGE_WRITE`. -/
@[simp] def CY_OTA_STATE_STORAGE_WRITE : Nat := 20
/-- State tag `CY_OTA_STATE_STORAGE_CLOSE`. -/
@[simp] def CY_OTA_STATE_STORAGE_CLOSE : Nat := 21
/-- State tag `CY_OTA_STATE_VERIFY`. -/
@[simp] def CY_OTA_STATE_VERIFY : Nat := 22
/-- State tag `CY_OTA_STATE_RESULT_REDIRECT`. -/
@[simp] def CY_OTA_STATE_RESULT_REDIRECT : Nat := 23
/-- Sentinel `CY_OTA_NUM_STATES` (has its own `case` arm with a bare
`break` in the source). -/
@[simp] def CY_OTA_NUM_STATES : Nat := 24

/-- The state tags that carry an explicit `case` arm in the inner `switch`
of `ota_callback` (ota_task.c lines 335-469), in source order. -/
def enumeratedStates : List Nat :=
  [CY_OTA_STATE_NOT_INITIALIZED, CY_OTA_STATE_EXITING,
   CY_OTA_STATE_INITIALIZING, CY_OTA_STATE_AGENT_STARTED,
   CY_OTA_STATE_AGENT_WAITING, CY_OTA_STATE_START_UPDATE,
   CY_OTA_STATE_JOB_CONNECT, CY_OTA_STATE_JOB_DOWNLOAD,
   CY_OTA_STATE_JOB_DISCONNECT, CY_OTA_STATE_JOB_PARSE,
   CY_OTA_STATE_JOB_REDIRECT, CY_OTA_STATE_DATA_CONNECT,
   CY_OTA_STATE_DATA_DOWNLOAD, CY_OTA_STATE_DATA_DISCONNECT,
   CY_OTA_STATE_RESULT_CONNECT, CY_OTA_STATE_RESULT_SEND,
   CY_OTA_STATE_RESULT_RESPONSE, CY_OTA_STATE_RESULT_DISCONNECT,
   CY_OTA_STATE_OTA_COMPLETE, CY_OTA_STATE_STORAGE_OPEN,
   CY_OTA_STATE_STORAGE_WRITE, CY_OTA_STATE_STORAGE_CLOSE,
   CY_OTA_STATE_VERIFY, CY_OTA_STATE_RESULT_REDIRECT,
   CY_OTA_NUM_STATES]

/- ------------------------------------------------------------------ -/
/- C strings and the callback event record                             -/
/- ------------------------------------------------------------------ -/

/-- A C string pointer: `none` is a NULL pointer, `some s` a NUL-terminated
string with contents `s`. -/
abbrev CStr := Option (List Char)

/-- `strlen` as used by the source.  At `none` (NULL) real C is undefined;
the embedding returns 0 there and the undefinedness is recorded separately
through `LogEvent.ub` on the trace (see `LogEvent.evalStrlen`). -/
def strlenC : CStr → Nat
  | none => 0
  | some s => s.length

/-- `broker_server` field of the event record (`cy_awsport_server_info_t`):
a host-name pointer and a port. -/
structure cy_ota_server_info_t where
  host_name : CStr
  port : Nat
deriving DecidableEq, Repr

/-- The callback event record `cy_ota_cb_struct_t` (cy_ota_api.h), with the
fields `ota_task.c` reads: transition reason, agent state, server, file
path, JSON document, and the storage-write counters. -/
structure cy_ota_cb_struct_t where
  reason : Nat
  ota_agt_state : Nat
  broker_server : cy_ota_server_info_t
  file : CStr
  json_doc : CStr
  percentage : Nat
  bytes_written : Nat
  total_size : Nat
deriving DecidableEq, Repr

/-- One observable step of `ota_callback`: a decode call, a `printf`, or a
bare `strlen` evaluation.  Each constructor corresponds to one call site in
ota_task.c and carries the pointer/number arguments that call formats. -/
inductive LogEvent where
  /-- `cy_ota_get_state_string(cb_data->ota_agt_state)` (line 312). -/
  | decodeState (state : Nat)
  /-- `cy_ota_get_error_string(cy_ota_get_last_error())` (line 313). -/
  | decodeError
  /-- `print_heap_usage("In OTA Callback")` (line 315). -/
  | printHeapUsage
  /-- success line (line 324). -/
  | printSuccessLine (state : Nat)
  /-- failure line (line 330). -/
  | printFailureLine (state : Nat)
  /-- start-update line (line 345). -/
  | printStartUpdate
  /-- job-connect header (line 349). -/
  | printJobConnectHeader
  /-- evaluation of `strlen(cb_data->file)` in the job-connect guard
  (line 355); reached only when the two earlier disjuncts are false. -/
  | evalStrlen (s : CStr)
  /-- job-connect error line (line 357): formats host and file with `%p`. -/
  | printJobConnectError (host : CStr) (port : Nat) (file : CStr)
  /-- job-connect target line (line 363): formats host and file with `%s`. -/
  | printJobConnectTarget (host : CStr) (port : Nat) (file : CStr)
  /-- job-download header (line 371). -/
  | printJobDownloadHeader
  /-- job-download file line (line 375): `%s` on `file`. -/
  | printJobDownloadFile (file : CStr)
  /-- job-disconnect line (line 379). -/
  | printJobDisconnect
  /-- job-parse line (line 383): `strlen` and `%.*s` on `json_doc`. -/
  | printJobParse (json : CStr)
  /-- job-redirect line (line 389). -/
  | printJobRedirect
  /-- data-connect header (line 393). -/
  | printDataConnectHeader
  /-- data-connect target line (line 394): `%s` on `host_name`. -/
  | printDataConnectTarget (host : CStr) (port : Nat)
  /-- data-download header (line 399). -/
  | printDataDownloadHeader
  /-- data-download json line (line 403): `strlen` and `%.*s` on
  `json_doc`. -/
  | printDataDownloadJson (json : CStr)
  /-- data-download file line (line 404): `%s` on `file`. -/
  | printDataDownloadFile (file : CStr)
  /-- data-disconnect line (line 408). -/
  | printDataDisconnect
  /-- result-connect header (line 412). -/
  | printResultConnectHeader
  /-- result-connect target line (line 416): `%s` on `host_name`. -/
  | printResultConnectTarget (host : CStr) (port : Nat)
  /-- result-send header (line 422). -/
  | printResultSendHeader
  /-- result-send json line (line 426): `%s` on `json_doc`. -/
  | printResultSendJson (json : CStr)
  /-- result-response line (line 430). -/
  | printResultResponse
  /-- result-disconnect line (line 434). -/
  | printResultDisconnect
  /-- session-complete line (line 438). -/
  | printOtaComplete
  /-- storage-open line (line 442). -/
  | printStorageOpen
  /-- storage-write progress line (line 446). -/
  | printStorageWrite (percentage : Nat) (bytes_written : Nat) (total_size : Nat)
  /-- cursor-to-previous-line escape (line 452). -/
  | printCursorUp
  /-- storage-close line (line 456). -/
  | printStorageClose
  /-- verify line (line 460). -/
  | printVerify
  /-- result-redirect line (line 464). -/
  | printResultRedirect
deriving DecidableEq, Repr

/-- Whether the event's C execution is undefined: `strlen` on NULL, or a
NULL pointer formatted with `%s`/`%.*s`.  Formatting a NULL pointer with
`%p` or `%d`/`%ld` is defined, so `printJobConnectError` is always
defined. -/
def LogEvent.ub : LogEvent → Bool
  | .evalStrlen s => s.isNone
  | .printJobConnectTarget host _ file => host.isNone || file.isNone
  | .printJobDownloadFile file => file.isNone
  | .printJobParse json => json.isNone
  | .printDataConnectTarget host _ => host.isNone
  | .printDataDownloadJson json => json.isNone
  | .printDataDownloadFile file => file.isNone
  | .printResultConnectTarget host _ => host.isNone
  | .printResultSendJson json => json.isNone
  | _ => false

/-- A trace performs an undefined operation if some event in it does. -/
def traceUB (t : List LogEvent) : Bool := t.any LogEvent.ub

/- ------------------------------------------------------------------ -/
/- The event logger `ota_callback`                                     -/
/- ------------------------------------------------------------------ -/

/-- The job-connect validation condition (ota_task.c lines 353-355):
`host_name == NULL || port == 0 || strlen(file) == 0`. -/
def job_connect_invalid (cb : cy_ota_cb_struct_t) : Prop :=
  cb.broker_server.host_name = none ∨ cb.broker_server.port = 0 ∨
    strlenC cb.file = 0

instance (cb : cy_ota_cb_struct_t) : Decidable (job_connect_invalid cb) := by
  unfold job_connect_invalid; infer_instance

/-- The inner `switch (cb_data->ota_agt_state)` of `ota_callback`
(ota_task.c lines 335-469), for the `CY_OTA_REASON_STATE_CHANGE` arm.
Returns the value of `cb_result` on exit from the `switch` together with
the events the arm performs.  A state tag equal to none of the `case`
labels matches no arm (the `switch` has no `default`) and falls through
with no action. -/
def state_change_dispatch (cb : cy_ota_cb_struct_t) :
    cy_ota_callback_results_t × List LogEvent :=
  if cb.ota_agt_state = CY_OTA_STATE_NOT_INITIALIZED ∨
     cb.ota_agt_state = CY_OTA_STATE_EXITING ∨
     cb.ota_agt_state = CY_OTA_STATE_INITIALIZING ∨
     cb.ota_agt_state = CY_OTA_STATE_AGENT_STARTED ∨
     cb.ota_agt_state = CY_OTA_STATE_AGENT_WAITING then
    (CY_OTA_CB_RSLT_OTA_CONTINUE, [])
  else if cb.ota_agt_state = CY_OTA_STATE_START_UPDATE then
    (CY_OTA_CB_RSLT_OTA_CONTINUE, [.printStartUpdate])
  else if cb.ota_agt_state = CY_OTA_STATE_JOB_CONNECT then
    -- short-circuit evaluation of the guard: `strlen(cb_data->file)` is
    -- reached only when the host is non-NULL and the port nonzero; the
    -- target print (line 363) runs unconditionally after the check.
    if cb.broker_server.host_name = none then
      (CY_OTA_CB_RSLT_OTA_STOP,
       [.printJobConnectHeader,
        .printJobConnectError cb.broker_server.host_name cb.broker_server.port cb.file,
        .printJobConnectTarget cb.broker_server.host_name cb.broker_server.port cb.file])
    else if cb.broker_server.port = 0 then
      (CY_OTA_CB_RSLT_OTA_STOP,
       [.printJobConnectHeader,
        .printJobConnectError cb.broker_server.host_name cb.broker_server.port cb.file,
        .printJobConnectTarget cb.broker_server.host_name cb.broker_server.port cb.file])
    else if strlenC cb.file = 0 then
      (CY_OTA_CB_RSLT_OTA_STOP,
       [.printJobConnectHeader, .evalStrlen cb.file,
        .printJobConnectError cb.broker_server.host_name cb.broker_server.port cb.file,
        .printJobConnectTarget cb.broker_server.host_name cb.broker_server.port cb.file])
    else
      (CY_OTA_CB_RSLT_OTA_CONTINUE,
       [.printJobConnectHeader, .evalStrlen cb.file,
        .printJobConnectTarget cb.broker_server.host_name cb.broker_server.port cb.file])
  else if cb.ota_agt_state = CY_OTA_STATE_JOB_DOWNLOAD then
    (CY_OTA_CB_RSLT_OTA_CONTINUE,
     [.printJobDownloadHeader, .printJobDownloadFile cb.file])
  else if cb.ota_agt_state = CY_OTA_STATE_JOB_DISCONNECT then
    (CY_OTA_CB_RSLT_OTA_CONTINUE, [.printJobDisconnect])
  else if cb.ota_agt_state = CY_OTA_STATE_JOB_PARSE then
    (CY_OTA_CB_RSLT_OTA_CONTINUE, [.printJobParse cb.json_doc])
  else if cb.ota_agt_state = CY_OTA_STATE_JOB_REDIRECT then
    (CY_OTA_CB_RSLT_OTA_CONTINUE, [.printJobRedirect])
  else if cb.ota_agt_state = CY_OTA_STATE_DATA_CONNECT then
    (CY_OTA_CB_RSLT_OTA_CONTINUE,
     [.printDataConnectHeader,
      .printDataConnectTarget cb.broker_server.host_name cb.broker_server.port])
  else if cb.ota_agt_state = CY_OTA_STATE_DATA_DOWNLOAD then
    (CY_OTA_CB_RSLT_OTA_CONTINUE,
     [.printDataDownloadHeader, .printDataDownloadJson cb.json_doc,
      .printDataDownloadFile cb.file])
  else if cb.ota_agt_state = CY_OTA_STATE_DATA_DISCONNECT then
    (CY_OTA_CB_RSLT_OTA_CONTINUE, [.printDataDisconnect])
  else if cb.ota_agt_state = CY_OTA_STATE_RESULT_CONNECT then
    (CY_OTA_CB_RSLT_OTA_CONTINUE,
     [.printResultConnectHeader,
      .printResultConnectTarget cb.broker_server.host_name cb.broker_server.port])
  else if cb.ota_agt_state = CY_OTA_STATE_RESULT_SEND then
    (CY_OTA_CB_RSLT_OTA_CONTINUE,
     [.printResultSendHeader, .printResultSendJson cb.json_doc])
  else if cb.ota_agt_state = CY_OTA_STATE_RESULT_RESPONSE then
    (CY_OTA_CB_RSLT_OTA_CONTINUE, [.printResultResponse])
  else if cb.ota_agt_state = CY_OTA_STATE_RESULT_DISCONNECT then
    (CY_OTA_CB_RSLT_OTA_CONTINUE, [.printResultDisconnect])
  else if cb.ota_agt_state = CY_OTA_STATE_OTA_COMPLETE then
    (CY_OTA_CB_RSLT_OTA_CONTINUE, [.printOtaComplete])
  else if cb.ota_agt_state = CY_OTA_STATE_STORAGE_OPEN then
    (CY_OTA_CB_RSLT_OTA_CONTINUE, [.printStorageOpen])
  else if cb.ota_agt_state = CY_OTA_STATE_STORAGE_WRITE then
    (CY_OTA_CB_RSLT_OTA_CONTINUE,
     [.printStorageWrite cb.percentage cb.bytes_written cb.total_size,
      .printCursorUp])
  else if cb.ota_agt_state = CY_OTA_STATE_STORAGE_CLOSE then
    (CY_OTA_CB_RSLT_OTA_CONTINUE, [.printStorageClose])
  else if cb.ota_agt_state = CY_OTA_STATE_VERIFY then
    (CY_OTA_CB_RSLT_OTA_CONTINUE, [.printVerify])
  else if cb.ota_agt_state = CY_OTA_STATE_RESULT_REDIRECT then
    (CY_OTA_CB_RSLT_OTA_CONTINUE, [.printResultRedirect])
  else if cb.ota_agt_state = CY_OTA_NUM_STATES then
    (CY_OTA_CB_RSLT_OTA_CONTINUE, [])
  else
    (CY_OTA_CB_RSLT_OTA_CONTINUE, [])

/-- The events every non-NULL invocation performs before the outer
`switch`: the two decode calls (lines 312-313) and the heap-usage print
(line 315). -/
def callback_preamble (cb : cy_ota_cb_struct_t) : List LogEvent :=
  [.decodeState cb.ota_agt_state, .decodeError, .printHeapUsage]

/-- The event logger `ota_callback` (ota_task.c lines 301-474).  The
argument is `none` for a NULL `cb_data` pointer.  Returns the
`cy_ota_callback_results_t` result together with the trace of decode and
print operations the call performs.  A reason tag equal to none of the four
enumerated reasons matches no arm of the outer `switch` (which has no
`default`) and returns the initial `cb_result`. -/
def ota_callback (cb_data : Option cy_ota_cb_struct_t) :
    cy_ota_callback_results_t × List LogEvent :=
  match cb_data with
  | none => (CY_OTA_CB_RSLT_OTA_STOP, [])
  | some cb =>
    if cb.reason = CY_OTA_LAST_REASON then
      (CY_OTA_CB_RSLT_OTA_CONTINUE, callback_preamble cb)
    else if cb.reason = CY_OTA_REASON_SUCCESS then
      (CY_OTA_CB_RSLT_OTA_CONTINUE,
       callback_preamble cb ++ [.printSuccessLine cb.ota_agt_state])
    else if cb.reason = CY_OTA_REASON_FAILURE then
      (CY_OTA_CB_RSLT_OTA_CONTINUE,
       callback_preamble cb ++ [.printFailureLine cb.ota_agt_state])
    else if cb.reason = CY_OTA_REASON_STATE_CHANGE then
      ((state_change_dispatch cb).1,
       callback_preamble cb ++ (state_change_dispatch cb).2)
    else
      (CY_OTA_CB_RSLT_OTA_CONTINUE, callback_preamble cb)

/- ------------------------------------------------------------------ -/
/- Ethernet bring-up `ethernet_connect`                                -/
/- ------------------------------------------------------------------ -/

/-- `MAX_CONNECTION_RETRIES` (ota_task.c line 63). -/
def MAX_CONNECTION_RETRIES : Nat := 10

/-- Oracle for the external Ethernet-connection-manager calls made by
`ethernet_connect`: the results of `cy_ecm_init`, `cy_ecm_ethif_init`, and
of the k-th `cy_ecm_connect` attempt (0-indexed). -/
structure EthEnv where
  ecm_init_result : Nat
  ethif_init_result : Nat
  connect_result : Nat → Nat

/-- Outcome of running `ethernet_connect`: either the process halted inside
it on `CY_ASSERT(0)`, or the function returned a result code. -/
inductive EthOutcome where
  | halted
  | returned (code : Nat)
deriving DecidableEq, Repr

/-- A run of `ethernet_connect`: its outcome, the number of
`cy_ecm_connect` attempts made, and the number of `vTaskDelay` retry
delays performed. -/
structure EthRun where
  outcome : EthOutcome
  attempts : Nat
  delays : Nat
deriving DecidableEq, Repr

/-- The retry `for` loop of `ethernet_connect` (ota_task.c lines 263-279).
`k` is the absolute index of the next attempt (`conn_retries`), `prev` the
current value of the local `result`, and the last argument the number of
loop iterations still permitted.  Returns the value of `result` when the
loop is left together with the attempts/delays performed from this point.
On a successful attempt the function returns at once (one attempt, no
delay); on failure it prints, delays, and continues. -/
def connect_loop (env : EthEnv) (prev : Nat) (k : Nat) :
    Nat → Nat × Nat × Nat
  | 0 => (prev, 0, 0)
  | rem + 1 =>
    if env.connect_result k = CY_RSLT_SUCCESS then
      (env.connect_result k, 1, 0)
    else
      ((connect_loop env (env.connect_result k) (k + 1) rem).1,
       (connect_loop env (env.connect_result k) (k + 1) rem).2.1 + 1,
       (connect_loop env (env.connect_result k) (k + 1) rem).2.2 + 1)

/-- `ethernet_connect` (ota_task.c lines 230-284): `cy_ecm_init` and
`cy_ecm_ethif_init` each halt the process (`CY_ASSERT(0)`) on failure;
then the retry loop runs with `result` holding `CY_RSLT_SUCCESS` (the
value both init calls returned on the non-halting path), and the value of
`result` after the loop is returned. -/
def ethernet_connect (env : EthEnv) : EthRun :=
  if env.ecm_init_result ≠ CY_RSLT_SUCCESS then
    ⟨.halted, 0, 0⟩
  else if env.ethif_init_result ≠ CY_RSLT_SUCCESS then
    ⟨.halted, 0, 0⟩
  else
    ⟨.returned (connect_loop env env.ethif_init_result 0 MAX_CONNECTION_RETRIES).1,
     (connect_loop env env.ethif_init_result 0 MAX_CONNECTION_RETRIES).2.1,
     (connect_loop env env.ethif_init_result 0 MAX_CONNECTION_RETRIES).2.2⟩

/- ------------------------------------------------------------------ -/
/- Task entry point `ota_task`                                         -/
/- ------------------------------------------------------------------ -/

/-- The steps `ota_task` can execute, in source order
(ota_task.c lines 161-201). -/
inductive TaskStep where
  | storageInit
  | imageValidate
  | ethConnect
  | networkInit
  | agentStart
  | suspendSelf
deriving DecidableEq, Repr

/-- Outcome of `ota_task`: the process halted on a `CY_ASSERT(0)` (either
directly or inside `ethernet_connect`), or the task reached
`vTaskSuspend(NULL)` and suspended itself permanently. -/
inductive TaskOutcome where
  | halted
  | suspended
deriving DecidableEq, Repr

/-- Oracle for the external calls made by `ota_task`: results of
`cy_ota_storage_init`, `cy_ota_storage_image_validate`,
`cy_awsport_network_init` and `cy_ota_agent_start`, plus the Ethernet
oracle.  `test_revert` models the `TEST_REVERT` compile flag: when true,
the post-revert image-validation step is compiled out. -/
structure TaskEnv where
  test_revert : Bool
  storage_init_result : Nat
  image_validate_result : Nat
  eth : EthEnv
  network_init_result : Nat
  agent_start_result : Nat

/-- A run of `ota_task`: outcome, the steps executed in order, and write
counts for the file's globals.  `cy_ota_agent_start` receives
`&ota_context` and is the only call that writes the session handle; the
three configuration globals (`ota_network_params`, `ota_agent_params`,
`ota_interfaces`) are statically initialized and no function in the file
assigns to them, so their write counts stay 0 on every path. -/
structure TaskRun where
  outcome : TaskOutcome
  steps : List TaskStep
  ota_context_writes : Nat
  ota_network_params_writes : Nat
  ota_agent_params_writes : Nat
  ota_interfaces_writes : Nat
deriving DecidableEq, Repr

/-- The step list of a full successful run, depending on the
`TEST_REVERT` flag. -/
def fullSteps (test_revert : Bool) : List TaskStep :=
  .storageInit ::
    (if test_revert then [] else [.imageValidate]) ++
      [.ethConnect, .networkInit, .agentStart, .suspendSelf]

/-- `ota_task` (ota_task.c lines 161-201): storage init, then (unless
`TEST_REVERT` is defined) post-revert image validation, then
`ethernet_connect`, then `cy_awsport_network_init`, then
`cy_ota_agent_start`, halting on the first failure; on full success the
task suspends itself.  The Ethernet step counts as failed both when
`ethernet_connect` halts internally and when it returns a non-success
code (the caller then asserts). -/
def ota_task (env : TaskEnv) : TaskRun :=
  if env.storage_init_result ≠ CY_RSLT_SUCCESS then
    ⟨.halted, [.storageInit], 0, 0, 0, 0⟩
  else if ¬env.test_revert ∧ env.image_validate_result ≠ CY_RSLT_SUCCESS then
    ⟨.halted, [.storageInit, .imageValidate], 0, 0, 0, 0⟩
  else if (ethernet_connect env.eth).outcome ≠ .returned CY_RSLT_SUCCESS then
    ⟨.halted,
     .storageInit :: (if env.test_revert then [] else [.imageValidate]) ++ [.ethConnect],
     0, 0, 0, 0⟩
  else if env.network_init_result ≠ CY_RSLT_SUCCESS then
    ⟨.halted,
     .storageInit :: (if env.test_revert then [] else [.imageValidate]) ++
       [.ethConnect, .networkInit],
     0, 0, 0, 0⟩
  else if env.agent_start_result ≠ CY_RSLT_SUCCESS then
    ⟨.halted,
     .storageInit :: (if env.test_revert then [] else [.imageValidate]) ++
       [.ethConnect, .networkInit, .agentStart],
     1, 0, 0, 0⟩
  else
    ⟨.suspended, fullSteps env.test_revert, 1, 0, 0, 0⟩

/- ------------------------------------------------------------------ -/
/- Sample inputs used by witnesses                                     -/
/- ------------------------------------------------------------------ -/

/-- A well-formed job-connect event record: non-NULL host, nonzero port,
non-empty file path. -/
def jobConnectOkRecord : cy_ota_cb_struct_t :=
  { reason := CY_OTA_REASON_STATE_CHANGE
    ota_agt_state := CY_OTA_STATE_JOB_CONNECT
    broker_server := { host_name := some ['h', 'o', 's', 't'], port := 443 }
    file := some ['/', 'j', 'o', 'b']
    json_doc := some ['g', 'e', 't']
    percentage := 0
    bytes_written := 0
    total_size := 0 }

/-- A job-connect event record with a NULL host pointer. -/
def jobConnectNullHostRecord : cy_ota_cb_struct_t :=
  { jobConnectOkRecord with broker_server := { host_name := none, port := 443 } }

/-- A storage-write event record with an out-of-range percentage. -/
def storageWriteRecord : cy_ota_cb_struct_t :=
  { reason := CY_OTA_REASON_STATE_CHANGE
    ota_agt_state := CY_OTA_STATE_STORAGE_WRITE
    broker_server := { host_name := none, port := 0 }
    file := none
    json_doc := none
    percentage := 250
    bytes_written := 5000
    total_size := 2000 }

/-- An event record carrying a state tag none of the `case` labels match
(an unknown/future state value). -/
def unknownStateRecord : cy_ota_cb_struct_t :=
  { storageWriteRecord with ota_agt_state := 99 }

/-- A job-parse event record whose `json_doc` pointer is NULL. -/
def jobParseNullJsonRecord : cy_ota_cb_struct_t :=
  { storageWriteRecord with ota_agt_state := CY_OTA_STATE_JOB_PARSE }

/- ------------------------------------------------------------------ -/
/- Helper lemmas on the callback                                       -/
/- ------------------------------------------------------------------ -/

set_option maxHeartbeats 1600000

/-- Peeling lemma for the `switch` chain: an arm returning `continue`
preserves a `continue` first component. -/
theorem fst_ite_continue {c : Prop} [Decidable c] (a : List LogEvent)
    (rest : cy_ota_callback_results_t × List LogEvent)
    (h : rest.1 = CY_OTA_CB_RSLT_OTA_CONTINUE) :
    (if c then (CY_OTA_CB_RSLT_OTA_CONTINUE, a) else rest).1 =
      CY_OTA_CB_RSLT_OTA_CONTINUE := by
  by_cases hc : c
  · rw [if_pos hc]
  · rw [if_neg hc]; exact h

/-- Characterization of the `cb_result` computed by the inner `switch`:
it is `stop` exactly on a job-connect state with invalid data, else
`continue`. -/
theorem state_change_dispatch_result (cb : cy_ota_cb_struct_t) :
    (state_change_dispatch cb).1 =
      if cb.ota_agt_state = CY_OTA_STATE_JOB_CONNECT ∧ job_connect_invalid cb
      then CY_OTA_CB_RSLT_OTA_STOP else CY_OTA_CB_RSLT_OTA_CONTINUE := by
  by_cases hjc : cb.ota_agt_state = CY_OTA_STATE_JOB_CONNECT
  · simp only [state_change_dispatch, job_connect_invalid, hjc, eq_self_iff_true,
      true_and, if_true]
    rw [if_neg (by decide), if_neg (by decide)]
    split_ifs with h1 h2 h3 h4 <;> first | rfl | simp_all
  · rw [if_neg (fun h => hjc h.1)]
    unfold state_change_dispatch
    apply fst_ite_continue
    apply fst_ite_continue
    rw [if_neg hjc]
    apply fst_ite_continue
    apply fst_ite_continue
    apply fst_ite_continue
    apply fst_ite_continue
    apply fst_ite_continue
    apply fst_ite_continue
    apply fst_ite_continue
    apply fst_ite_continue
    apply fst_ite_continue
    apply fst_ite_continue
    apply fst_ite_continue
    apply fst_ite_continue
    apply fst_ite_continue
    apply fst_ite_continue
    apply fst_ite_continue
    apply fst_ite_continue
    apply fst_ite_continue
    apply fst_ite_continue
    rfl

/-- Characterization of the result of `ota_callback` on a non-NULL event
record: `stop` exactly on a job-connect state-change with invalid data,
else `continue`. -/
theorem ota_callback_result (cb : cy_ota_cb_struct_t) :
    (ota_callback (some cb)).1 =
      if cb.reason = CY_OTA_REASON_STATE_CHANGE ∧
         cb.ota_agt_state = CY_OTA_STATE_JOB_CONNECT ∧ job_connect_invalid cb
      then CY_OTA_CB_RSLT_OTA_STOP else CY_OTA_CB_RSLT_OTA_CONTINUE := by
  by_cases hr : cb.reason = CY_OTA_REASON_STATE_CHANGE
  · simp only [ota_callback, hr, eq_self_iff_true, true_and, if_true]
    rw [if_neg (by decide), if_neg (by decide), if_neg (by decide)]
    exact state_change_dispatch_result cb
  · rw [if_neg (fun h => hr h.1)]
    simp only [ota_callback]
    split_ifs <;> rfl

/-- On a state-change reason, `ota_callback` returns the inner-`switch`
result and performs the preamble followed by the arm's events. -/
theorem ota_callback_state_change (cb : cy_ota_cb_struct_t)
    (hr : cb.reason = CY_OTA_REASON_STATE_CHANGE) :
    ota_callback (some cb) =
      ((state_change_dispatch cb).1,
       callback_preamble cb ++ (state_change_dispatch cb).2) := by
  simp only [ota_callback, hr]
  simp

/-- A state tag outside the enumerated `case` labels matches no arm: the
inner `switch` leaves `cb_result` untouched and performs nothing. -/
theorem state_change_dispatch_unknown (cb : cy_ota_cb_struct_t)
    (h : cb.ota_agt_state ∉ enumeratedStates) :
    state_change_dispatch cb = (CY_OTA_CB_RSLT_OTA_CONTINUE, []) := by
  have hne : ∀ c, c ∈ enumeratedStates → cb.ota_agt_state ≠ c :=
    fun c hc he => h (he ▸ hc)
  have g1 : cb.ota_agt_state ≠ CY_OTA_STATE_NOT_INITIALIZED := hne _ (by decide)
  have g2 : cb.ota_agt_state ≠ CY_OTA_STATE_EXITING := hne _ (by decide)
  have g3 : cb.ota_agt_state ≠ CY_OTA_STATE_INITIALIZING := hne _ (by decide)
  have g4 : cb.ota_agt_state ≠ CY_OTA_STATE_AGENT_STARTED := hne _ (by decide)
  have g5 : cb.ota_agt_state ≠ CY_OTA_STATE_AGENT_WAITING := hne _ (by decide)
  have g6 : cb.ota_agt_state ≠ CY_OTA_STATE_START_UPDATE := hne _ (by decide)
  have g7 : cb.ota_agt_state ≠ CY_OTA_STATE_JOB_CONNECT := hne _ (by decide)
  have g8 : cb.ota_agt_state ≠ CY_OTA_STATE_JOB_DOWNLOAD := hne _ (by decide)
  have g9 : cb.ota_agt_state ≠ CY_OTA_STATE_JOB_DISCONNECT := hne _ (by decide)
  have g10 : cb.ota_agt_state ≠ CY_OTA_STATE_JOB_PARSE := hne _ (by decide)
  have g11 : cb.ota_agt_state ≠ CY_OTA_STATE_JOB_REDIRECT := hne _ (by decide)
  have g12 : cb.ota_agt_state ≠ CY_OTA_STATE_DATA_CONNECT := hne _ (by decide)
  have g13 : cb.ota_agt_state ≠ CY_OTA_STATE_DATA_DOWNLOAD := hne _ (by decide)
  have g14 : cb.ota_agt_state ≠ CY_OTA_STATE_DATA_DISCONNECT := hne _ (by decide)
  have g15 : cb.ota_agt_state ≠ CY_OTA_STATE_RESULT_CONNECT := hne _ (by decide)
  have g16 : cb.ota_agt_state ≠ CY_OTA_STATE_RESULT_SEND := hne _ (by decide)
  have g17 : cb.ota_agt_state ≠ CY_OTA_STATE_RESULT_RESPONSE := hne _ (by decide)
  have g18 : cb.ota_agt_state ≠ CY_OTA_STATE_RESULT_DISCONNECT := hne _ (by decide)
  have g19 : cb.ota_agt_state ≠ CY_OTA_STATE_OTA_COMPLETE := hne _ (by decide)
  have g20 : cb.ota_agt_state ≠ CY_OTA_STATE_STORAGE_OPEN := hne _ (by decide)
  have g21 : cb.ota_agt_state ≠ CY_OTA_STATE_STORAGE_WRITE := hne _ (by decide)
  have g22 : cb.ota_agt_state ≠ CY_OTA_STATE_STORAGE_CLOSE := hne _ (by decide)
  have g23 : cb.ota_agt_state ≠ CY_OTA_STATE_VERIFY := hne _ (by decide)
  have g24 : cb.ota_agt_state ≠ CY_OTA_STATE_RESULT_REDIRECT := hne _ (by decide)
  have g25 : cb.ota_agt_state ≠ CY_OTA_NUM_STATES := hne _ (by decide)
  have gor : ¬(cb.ota_agt_state = CY_OTA_STATE_NOT_INITIALIZED ∨
      cb.ota_agt_state = CY_OTA_STATE_EXITING ∨
      cb.ota_agt_state = CY_OTA_STATE_INITIALIZING ∨
      cb.ota_agt_state = CY_OTA_STATE_AGENT_STARTED ∨
      cb.ota_agt_state = CY_OTA_STATE_AGENT_WAITING) := by
    rintro (h | h | h | h | h)
    exacts [g1 h, g2 h, g3 h, g4 h, g5 h]
  unfold state_change_dispatch
  rw [if_neg gor,
      if_neg g6, if_neg g7, if_neg g8, if_neg g9, if_neg g10, if_neg g11,
      if_neg g12, if_neg g13, if_neg g14, if_neg g15, if_neg g16, if_neg g17,
      if_neg g18, if_neg g19, if_neg g20, if_neg g21, if_neg g22, if_neg g23,
      if_neg g24, if_neg g25]

/- ------------------------------------------------------------------ -/
/- Claim theorems: the event logger                                    -/
/- ------------------------------------------------------------------ -/

/-- Claim C1: for every event record delivered to `ota_callback`, the
logger returns stop if and only if the event is a job-connect state-change
whose host pointer is absent (NULL), or whose port is zero, or whose file
path is empty; for every other job-connect event it returns continue, and
on the valid path it logs the connection target and allows
continuation. -/
theorem claim_C1_job_connect_stop_iff (cb : cy_ota_cb_struct_t) :
    ((ota_callback (some cb)).1 = CY_OTA_CB_RSLT_OTA_STOP ↔
      (cb.reason = CY_OTA_REASON_STATE_CHANGE ∧
       cb.ota_agt_state = CY_OTA_STATE_JOB_CONNECT ∧
       (cb.broker_server.host_name = none ∨ cb.broker_server.port = 0 ∨
        strlenC cb.file = 0))) ∧
    (cb.reason = CY_OTA_REASON_STATE_CHANGE →
     cb.ota_agt_state = CY_OTA_STATE_JOB_CONNECT →
     ¬(cb.broker_server.host_name = none ∨ cb.broker_server.port = 0 ∨
       strlenC cb.file = 0) →
     (ota_callback (some cb)).1 = CY_OTA_CB_RSLT_OTA_CONTINUE ∧
     LogEvent.printJobConnectTarget cb.broker_server.host_name
       cb.broker_server.port cb.file ∈ (ota_callback (some cb)).2) := by
  constructor
  · rw [ota_callback_result cb]
    unfold job_connect_invalid
    split_ifs with h
    · exact iff_of_true rfl h
    · exact iff_of_false (by simp) h
  · intro hr hs hval
    have h1 : ¬cb.broker_server.host_name = none := fun h => hval (Or.inl h)
    have h2 : ¬cb.broker_server.port = 0 := fun h => hval (Or.inr (Or.inl h))
    have h3 : ¬strlenC cb.file = 0 := fun h => hval (Or.inr (Or.inr h))
    rw [ota_callback_state_change cb hr]
    constructor
    · simp [state_change_dispatch, hs, h1, h2, h3]
    · simp [state_change_dispatch, hs, h1, h2, h3, callback_preamble]

/-- Claim C1 witness: a valid job-connect record yields continue and the
target line is printed. -/
theorem claim_C1_witness :
    (ota_callback (some jobConnectOkRecord)).1 = CY_OTA_CB_RSLT_OTA_CONTINUE ∧
    LogEvent.printJobConnectTarget jobConnectOkRecord.broker_server.host_name
      jobConnectOkRecord.broker_server.port jobConnectOkRecord.file ∈
      (ota_callback (some jobConnectOkRecord)).2 :=
  (claim_C1_job_connect_stop_iff jobConnectOkRecord).2 rfl rfl (by decide)

/-- Claim C2: a NULL event record makes `ota_callback` return stop at once,
performing no decoding, no printing and no dispatch (empty trace). -/
theorem claim_C2_null_record_stops :
    ota_callback none = (CY_OTA_CB_RSLT_OTA_STOP, []) := rfl

/-- Claim C6: for every non-NULL record whose state tag is outside the
enumerated `case` labels the logger returns continue with no undefined
operation, and across all inputs the logger only ever returns continue or
stop. -/
theorem claim_C6_default_continue :
    (∀ cb : cy_ota_cb_struct_t, cb.ota_agt_state ∉ enumeratedStates →
       (ota_callback (some cb)).1 = CY_OTA_CB_RSLT_OTA_CONTINUE ∧
       traceUB (ota_callback (some cb)).2 = false) ∧
    (∀ x : Option cy_ota_cb_struct_t,
       (ota_callback x).1 = CY_OTA_CB_RSLT_OTA_CONTINUE ∨
       (ota_callback x).1 = CY_OTA_CB_RSLT_OTA_STOP) := by
  constructor
  · intro cb h
    have hjc : cb.ota_agt_state ≠ CY_OTA_STATE_JOB_CONNECT :=
      fun he => h (he ▸ (by decide))
    constructor
    · rw [ota_callback_result cb]
      exact if_neg (fun hc => hjc hc.2.1)
    · by_cases hr : cb.reason = CY_OTA_REASON_STATE_CHANGE
      · rw [ota_callback_state_change cb hr, state_change_dispatch_unknown cb h]
        simp [traceUB, callback_preamble, LogEvent.ub]
      · simp only [ota_callback]
        split_ifs <;> simp [traceUB, callback_preamble, LogEvent.ub]
  · intro x
    match x with
    | none => exact Or.inr rfl
    | some cb =>
      rw [ota_callback_result cb]
      split_ifs with h
      · exact Or.inr rfl
      · exact Or.inl rfl

/-- Claim C6 witness: a record with the unknown state tag 99 yields
continue with no undefined operation. -/
theorem claim_C6_witness :
    (ota_callback (some unknownStateRecord)).1 = CY_OTA_CB_RSLT_OTA_CONTINUE ∧
    traceUB (ota_callback (some unknownStateRecord)).2 = false :=
  claim_C6_default_continue.1 unknownStateRecord (by decide)

/-- Claim C7: on every job-connect state-change event the target `printf`
(line 363) executes, validation failure or not; when the host pointer is
NULL that print formats a NULL pointer with `%s`, so the run performs an
operation that is undefined in C — the job-connect path is defined only
under the precondition that the host pointer is non-NULL. -/
theorem claim_C7_target_print_unconditional (cb : cy_ota_cb_struct_t)
    (hr : cb.reason = CY_OTA_REASON_STATE_CHANGE)
    (hs : cb.ota_agt_state = CY_OTA_STATE_JOB_CONNECT) :
    LogEvent.printJobConnectTarget cb.broker_server.host_name
      cb.broker_server.port cb.file ∈ (ota_callback (some cb)).2 ∧
    (cb.broker_server.host_name = none →
      traceUB (ota_callback (some cb)).2 = true) := by
  rw [ota_callback_state_change cb hr]
  constructor
  · simp only [List.mem_append]
    right
    simp [state_change_dispatch, hs]
    split_ifs <;> simp
  · intro hnone
    simp [state_change_dispatch, hs, hnone, traceUB, callback_preamble,
      LogEvent.ub]

/-- Claim C7 witness: on the NULL-host job-connect record the target line
is printed and an undefined `%s`-of-NULL operation occurs. -/
theorem claim_C7_witness :
    LogEvent.printJobConnectTarget
      jobConnectNullHostRecord.broker_server.host_name
      jobConnectNullHostRecord.broker_server.port
      jobConnectNullHostRecord.file ∈
      (ota_callback (some jobConnectNullHostRecord)).2 ∧
    traceUB (ota_callback (some jobConnectNullHostRecord)).2 = true :=
  ⟨(claim_C7_target_print_unconditional jobConnectNullHostRecord rfl rfl).1,
   (claim_C7_target_print_unconditional jobConnectNullHostRecord rfl rfl).2 rfl⟩

/-- Claim C8: in the job-parse and data-download state-change arms the
logger always returns continue (a NULL `json_doc` is not a stop signal the
way a NULL event record is), and the run is free of undefined operations
exactly when `json_doc` (and, for data-download, also `file`) is a
non-NULL string: `strlen`/`%s` are applied to those fields with no NULL
guard. -/
theorem claim_C8_json_doc_preconditions (cb : cy_ota_cb_struct_t)
    (hr : cb.reason = CY_OTA_REASON_STATE_CHANGE) :
    (cb.ota_agt_state = CY_OTA_STATE_JOB_PARSE →
      (ota_callback (some cb)).1 = CY_OTA_CB_RSLT_OTA_CONTINUE ∧
      (traceUB (ota_callback (some cb)).2 = false ↔ cb.json_doc ≠ none)) ∧
    (cb.ota_agt_state = CY_OTA_STATE_DATA_DOWNLOAD →
      (ota_callback (some cb)).1 = CY_OTA_CB_RSLT_OTA_CONTINUE ∧
      (traceUB (ota_callback (some cb)).2 = false ↔
        (cb.json_doc ≠ none ∧ cb.file ≠ none))) := by
  constructor
  · intro hs
    rw [ota_callback_state_change cb hr]
    constructor
    · simp [state_change_dispatch, hs]
    · cases hj : cb.json_doc <;>
        simp [state_change_dispatch, hs, hj, traceUB, callback_preamble,
          LogEvent.ub]
  · intro hs
    rw [ota_callback_state_change cb hr]
    constructor
    · simp [state_change_dispatch, hs]
    · cases hj : cb.json_doc <;> cases hf : cb.file <;>
        simp [state_change_dispatch, hs, hj, hf, traceUB, callback_preamble,
          LogEvent.ub]

/-- Claim C8 witness: a job-parse record with NULL `json_doc` still yields
continue, and its run performs an undefined operation. -/
theorem claim_C8_witness :
    (ota_callback (some jobParseNullJsonRecord)).1 =
      CY_OTA_CB_RSLT_OTA_CONTINUE ∧
    traceUB (ota_callback (some jobParseNullJsonRecord)).2 = true :=
  ⟨((claim_C8_json_doc_preconditions jobParseNullJsonRecord rfl).1 rfl).1,
   by decide⟩

/-- Claim C9: on every storage-write state-change event, whatever the
percentage (including values beyond 100), bytes-written and total-size
values, the logger performs exactly the preamble, the progress line and
the cursor-up escape, returns continue, and performs no undefined
operation. -/
theorem claim_C9_storage_write_progress (cb : cy_ota_cb_struct_t)
    (hr : cb.reason = CY_OTA_REASON_STATE_CHANGE)
    (hs : cb.ota_agt_state = CY_OTA_STATE_STORAGE_WRITE) :
    ota_callback (some cb) =
      (CY_OTA_CB_RSLT_OTA_CONTINUE,
       [LogEvent.decodeState CY_OTA_STATE_STORAGE_WRITE, LogEvent.decodeError,
        LogEvent.printHeapUsage,
        LogEvent.printStorageWrite cb.percentage cb.bytes_written
          cb.total_size,
        LogEvent.printCursorUp]) ∧
    traceUB (ota_callback (some cb)).2 = false := by
  rw [ota_callback_state_change cb hr]
  constructor
  · simp [state_change_dispatch, hs, callback_preamble]
  · simp [state_change_dispatch, hs, callback_preamble, traceUB, LogEvent.ub]

/-- Claim C9 witness: a storage-write record with percentage 250 (out of
the 0-100 range) yields the progress line, cursor-up, continue, and no
undefined operation. -/
theorem claim_C9_witness :
    ota_callback (some storageWriteRecord) =
      (CY_OTA_CB_RSLT_OTA_CONTINUE,
       [LogEvent.decodeState CY_OTA_STATE_STORAGE_WRITE, LogEvent.decodeError,
        LogEvent.printHeapUsage, LogEvent.printStorageWrite 250 5000 2000,
        LogEvent.printCursorUp]) ∧
    traceUB (ota_callback (some storageWriteRecord)).2 = false :=
  claim_C9_storage_write_progress storageWriteRecord rfl rfl

/- ------------------------------------------------------------------ -/
/- Retry-loop lemmas and Ethernet claims                               -/
/- ------------------------------------------------------------------ -/

/-- If every attempt in the window fails, the loop runs all its
iterations (one delay each) and `result` ends as the last attempt's
code. -/
theorem connect_loop_all_fail (env : EthEnv) :
    ∀ rem k prev,
      (∀ j, k ≤ j → j < k + rem → env.connect_result j ≠ CY_RSLT_SUCCESS) →
      connect_loop env prev k rem =
        (if rem = 0 then prev else env.connect_result (k + rem - 1), rem, rem) := by
  intro rem
  induction rem with
  | zero => intro k prev hfail; simp [connect_loop]
  | succ n ih =>
    intro k prev hfail
    have hk : env.connect_result k ≠ CY_RSLT_SUCCESS :=
      hfail k le_rfl (by omega)
    simp only [connect_loop, if_neg hk]
    rw [ih (k + 1) (env.connect_result k)
      (fun j hj1 hj2 => hfail j (by omega) (by omega))]
    cases n with
    | zero => simp
    | succ m =>
      have harith : k + 1 + (m + 1) - 1 = k + (m + 1 + 1) - 1 := by omega
      simp [harith]

/-- If the first `d` attempts fail and attempt `d` succeeds (within the
window), the loop returns success after exactly `d + 1` attempts and `d`
delays. -/
theorem connect_loop_first_success (env : EthEnv) :
    ∀ d rem k prev, d < rem →
      (∀ j, k ≤ j → j < k + d → env.connect_result j ≠ CY_RSLT_SUCCESS) →
      env.connect_result (k + d) = CY_RSLT_SUCCESS →
      connect_loop env prev k rem = (CY_RSLT_SUCCESS, d + 1, d) := by
  intro d
  induction d with
  | zero =>
    intro rem k prev hlt hfail hsucc
    rw [Nat.add_zero] at hsucc
    cases rem with
    | zero => omega
    | succ n =>
      simp only [connect_loop, if_pos hsucc]
      rw [hsucc]
  | succ m ih =>
    intro rem k prev hlt hfail hsucc
    cases rem with
    | zero => omega
    | succ n =>
      have hk : env.connect_result k ≠ CY_RSLT_SUCCESS :=
        hfail k le_rfl (by omega)
      simp only [connect_loop, if_neg hk]
      rw [ih n (k + 1) (env.connect_result k) (by omega)
        (fun j hj1 hj2 => hfail j (by omega) (by omega))
        (by rw [show k + 1 + m = k + (m + 1) by omega]; exact hsucc)]

/-- Claim C3: when all `MAX_CONNECTION_RETRIES` attempts fail,
`ethernet_connect` makes exactly 10 attempts and 10 retry delays, and
returns the error code of the last attempt without asserting/halting. -/
theorem claim_C3_retries_exhausted (env : EthEnv)
    (h1 : env.ecm_init_result = CY_RSLT_SUCCESS)
    (h2 : env.ethif_init_result = CY_RSLT_SUCCESS)
    (hf : ∀ k, k < MAX_CONNECTION_RETRIES →
      env.connect_result k ≠ CY_RSLT_SUCCESS) :
    ethernet_connect env =
      ⟨.returned (env.connect_result 9), MAX_CONNECTION_RETRIES,
       MAX_CONNECTION_RETRIES⟩ := by
  unfold ethernet_connect
  rw [if_neg (fun hc => hc h1), if_neg (fun hc => hc h2)]
  rw [connect_loop_all_fail env MAX_CONNECTION_RETRIES 0 env.ethif_init_result
    (fun j hj1 hj2 => hf j (by simpa using hj2))]
  simp [MAX_CONNECTION_RETRIES]

/-- An oracle on which every connection attempt fails with code 7. -/
def ethAllFailEnv : EthEnv :=
  ⟨CY_RSLT_SUCCESS, CY_RSLT_SUCCESS, fun _ => 7⟩

/-- Claim C3 witness: with all attempts failing with code 7, the run makes
10 attempts, 10 delays, and returns 7. -/
theorem claim_C3_witness :
    ethernet_connect ethAllFailEnv = ⟨.returned 7, 10, 10⟩ :=
  claim_C3_retries_exhausted ethAllFailEnv rfl rfl
    (fun k hk => by simp [ethAllFailEnv])

/-- Claim C4: for every k ≤ 9, if the first k attempts fail and attempt k
succeeds, `ethernet_connect` returns success immediately after that
attempt: exactly k + 1 attempts and k retry delays. -/
theorem claim_C4_success_stops_retrying (env : EthEnv) (k : Nat)
    (hk : k < MAX_CONNECTION_RETRIES)
    (h1 : env.ecm_init_result = CY_RSLT_SUCCESS)
    (h2 : env.ethif_init_result = CY_RSLT_SUCCESS)
    (hf : ∀ j, j < k → env.connect_result j ≠ CY_RSLT_SUCCESS)
    (hs : env.connect_result k = CY_RSLT_SUCCESS) :
    ethernet_connect env = ⟨.returned CY_RSLT_SUCCESS, k + 1, k⟩ := by
  unfold ethernet_connect
  rw [if_neg (fun hc => hc h1), if_neg (fun hc => hc h2)]
  rw [connect_loop_first_success env k MAX_CONNECTION_RETRIES 0
    env.ethif_init_result hk (fun j hj1 hj2 => hf j (by omega))
    (by simpa using hs)]

/-- An oracle failing on attempts 0-2 with code 5 and succeeding on
attempt 3. -/
def ethThirdRetryEnv : EthEnv :=
  ⟨CY_RSLT_SUCCESS, CY_RSLT_SUCCESS,
   fun j => if j < 3 then 5 else CY_RSLT_SUCCESS⟩

/-- Claim C4 witness: with the first success on attempt 3, the run makes
4 attempts and 3 delays and returns success. -/
theorem claim_C4_witness :
    ethernet_connect ethThirdRetryEnv =
      ⟨.returned CY_RSLT_SUCCESS, 4, 3⟩ :=
  claim_C4_success_stops_retrying ethThirdRetryEnv 3 (by decide) rfl rfl
    (fun j hj => by simp [ethThirdRetryEnv, hj]) (by decide)

/-- `ethernet_connect` comes back with a success return exactly when both
initialization calls succeed and some attempt within the retry window
succeeds. -/
theorem ethernet_connect_success_iff (env : EthEnv) :
    (ethernet_connect env).outcome = EthOutcome.returned CY_RSLT_SUCCESS ↔
      (env.ecm_init_result = CY_RSLT_SUCCESS ∧
       env.ethif_init_result = CY_RSLT_SUCCESS ∧
       ∃ k, k < MAX_CONNECTION_RETRIES ∧
         env.connect_result k = CY_RSLT_SUCCESS) := by
  by_cases h1 : env.ecm_init_result = CY_RSLT_SUCCESS
  · by_cases h2 : env.ethif_init_result = CY_RSLT_SUCCESS
    · unfold ethernet_connect
      rw [if_neg (fun hc => hc h1), if_neg (fun hc => hc h2)]
      simp only [h1, h2, true_and]
      constructor
      · intro h
        by_contra hno
        push_neg at hno
        rw [connect_loop_all_fail env MAX_CONNECTION_RETRIES 0
          CY_RSLT_SUCCESS
          (fun j hj1 hj2 => hno j (by simpa using hj2))] at h
        simp only [MAX_CONNECTION_RETRIES] at h
        exact hno 9 (by decide) (by simpa using h)
      · rintro ⟨k, hk, hsk⟩
        have hex : ∃ j, env.connect_result j = CY_RSLT_SUCCESS := ⟨k, hsk⟩
        have hd : env.connect_result (Nat.find hex) = CY_RSLT_SUCCESS :=
          Nat.find_spec hex
        have hdle : Nat.find hex ≤ k := Nat.find_min' hex hsk
        rw [connect_loop_first_success env (Nat.find hex)
          MAX_CONNECTION_RETRIES 0 CY_RSLT_SUCCESS (by omega)
          (fun j hj1 hj2 => Nat.find_min hex (by simpa using hj2))
          (by simpa using hd)]
    · unfold ethernet_connect
      rw [if_neg (fun hc => hc h1), if_pos h2]
      exact iff_of_false (by simp) (fun hc => h2 hc.2.1)
  · unfold ethernet_connect
    rw [if_pos h1]
    exact iff_of_false (by simp) (fun hc => h1 hc.1)

/- ------------------------------------------------------------------ -/
/- Task sequencing claims                                              -/
/- ------------------------------------------------------------------ -/

/-- Claim C5: `ota_task` executes storage-init, then (unless compiled out)
post-revert image validation, then link bring-up, then secure-transport
bootstrap, then agent launch, in that exact order; the first failing step
halts the process with no later step executed, and when every step
succeeds the task reaches permanent self-suspension with no halt. -/
theorem claim_C5_sequencing (env : TaskEnv) :
    (env.storage_init_result ≠ CY_RSLT_SUCCESS →
       ota_task env = ⟨.halted, [.storageInit], 0, 0, 0, 0⟩) ∧
    (env.storage_init_result = CY_RSLT_SUCCESS → ¬env.test_revert →
       env.image_validate_result ≠ CY_RSLT_SUCCESS →
       ota_task env = ⟨.halted, [.storageInit, .imageValidate], 0, 0, 0, 0⟩) ∧
    (env.storage_init_result = CY_RSLT_SUCCESS →
       (env.test_revert ∨ env.image_validate_result = CY_RSLT_SUCCESS) →
       (ethernet_connect env.eth).outcome ≠ .returned CY_RSLT_SUCCESS →
       ota_task env =
         ⟨.halted,
          .storageInit ::
            (if env.test_revert then [] else [.imageValidate]) ++
              [.ethConnect], 0, 0, 0, 0⟩) ∧
    (env.storage_init_result = CY_RSLT_SUCCESS →
       (env.test_revert ∨ env.image_validate_result = CY_RSLT_SUCCESS) →
       (ethernet_connect env.eth).outcome = .returned CY_RSLT_SUCCESS →
       env.network_init_result ≠ CY_RSLT_SUCCESS →
       ota_task env =
         ⟨.halted,
          .storageInit ::
            (if env.test_revert then [] else [.imageValidate]) ++
              [.ethConnect, .networkInit], 0, 0, 0, 0⟩) ∧
    (env.storage_init_result = CY_RSLT_SUCCESS →
       (env.test_revert ∨ env.image_validate_result = CY_RSLT_SUCCESS) →
       (ethernet_connect env.eth).outcome = .returned CY_RSLT_SUCCESS →
       env.network_init_result = CY_RSLT_SUCCESS →
       env.agent_start_result ≠ CY_RSLT_SUCCESS →
       ota_task env =
         ⟨.halted,
          .storageInit ::
            (if env.test_revert then [] else [.imageValidate]) ++
              [.ethConnect, .networkInit, .agentStart], 1, 0, 0, 0⟩) ∧
    (env.storage_init_result = CY_RSLT_SUCCESS →
       (env.test_revert ∨ env.image_validate_result = CY_RSLT_SUCCESS) →
       env.eth.ecm_init_result = CY_RSLT_SUCCESS →
       env.eth.ethif_init_result = CY_RSLT_SUCCESS →
       (∃ k, k < MAX_CONNECTION_RETRIES ∧
          env.eth.connect_result k = CY_RSLT_SUCCESS) →
       env.network_init_result = CY_RSLT_SUCCESS →
       env.agent_start_result = CY_RSLT_SUCCESS →
       ota_task env = ⟨.suspended, fullSteps env.test_revert, 1, 0, 0, 0⟩) := by
  refine ⟨?_, ?_, ?_, ?_, ?_, ?_⟩
  · intro h
    unfold ota_task
    rw [if_pos h]
  · intro h ht hv
    unfold ota_task
    rw [if_neg (fun hc => hc h), if_pos ⟨ht, hv⟩]
  · intro h hval heth
    unfold ota_task
    rw [if_neg (fun hc => hc h),
      if_neg (fun hc => hval.elim (fun ht => hc.1 ht) (fun hv => hc.2 hv)),
      if_pos heth]
  · intro h hval heq hn
    unfold ota_task
    rw [if_neg (fun hc => hc h),
      if_neg (fun hc => hval.elim (fun ht => hc.1 ht) (fun hv => hc.2 hv)),
      if_neg (fun hc => hc heq), if_pos hn]
  · intro h hval heq hn ha
    unfold ota_task
    rw [if_neg (fun hc => hc h),
      if_neg (fun hc => hval.elim (fun ht => hc.1 ht) (fun hv => hc.2 hv)),
      if_neg (fun hc => hc heq), if_neg (fun hc => hc hn), if_pos ha]
  · intro h hval hecm hethif hex hn ha
    have heq : (ethernet_connect env.eth).outcome =
        EthOutcome.returned CY_RSLT_SUCCESS :=
      (ethernet_connect_success_iff env.eth).mpr ⟨hecm, hethif, hex⟩
    unfold ota_task
    rw [if_neg (fun hc => hc h),
      if_neg (fun hc => hval.elim (fun ht => hc.1 ht) (fun hv => hc.2 hv)),
      if_neg (fun hc => hc heq), if_neg (fun hc => hc hn),
      if_neg (fun hc => hc ha)]

/-- An environment on which every external call succeeds, with the
post-revert validation step compiled in. -/
def taskAllOkEnv : TaskEnv :=
  ⟨false, CY_RSLT_SUCCESS, CY_RSLT_SUCCESS,
   ⟨CY_RSLT_SUCCESS, CY_RSLT_SUCCESS, fun _ => CY_RSLT_SUCCESS⟩,
   CY_RSLT_SUCCESS, CY_RSLT_SUCCESS⟩

/-- Claim C5 witness: when every step succeeds the task runs all six steps
in order and suspends itself with no halt. -/
theorem claim_C5_witness :
    ota_task taskAllOkEnv =
      ⟨.suspended,
       [.storageInit, .imageValidate, .ethConnect, .networkInit, .agentStart,
        .suspendSelf], 1, 0, 0, 0⟩ :=
  (claim_C5_sequencing taskAllOkEnv).2.2.2.2.2 rfl (Or.inr rfl) rfl rfl
    ⟨0, by decide, rfl⟩ rfl rfl

/-- Claim C10: on every path of `ota_task` the three configuration globals
are never written, and the session handle `ota_context` is written exactly
once — by the agent-start call — and only on the paths where that call
executes; no step after agent launch touches it. -/
theorem claim_C10_globals_single_write (env : TaskEnv) :
    (ota_task env).ota_network_params_writes = 0 ∧
    (ota_task env).ota_agent_params_writes = 0 ∧
    (ota_task env).ota_interfaces_writes = 0 ∧
    ((ota_task env).ota_context_writes =
      if TaskStep.agentStart ∈ (ota_task env).steps then 1 else 0) := by
  unfold ota_task
  cases htr : env.test_revert <;> split_ifs <;> simp_all [fullSteps]

/-- Claim C10 witness: on the all-success environment the configuration
globals see zero writes and the handle exactly one. -/
theorem claim_C10_witness :
    (ota_task taskAllOkEnv).ota_network_params_writes = 0 ∧
    (ota_task taskAllOkEnv).ota_agent_params_writes = 0 ∧
    (ota_task taskAllOkEnv).ota_interfaces_writes = 0 ∧
    ((ota_task taskAllOkEnv).ota_context_writes =
      if TaskStep.agentStart ∈ (ota_task taskAllOkEnv).steps then 1 else 0) :=
  claim_C10_globals_single_write taskAllOkEnv
